import Mathlib

/-!
# Appointment Lifecycle & Scheduling Engine — verification development

A shallow embedding of the appointment subsystem of the
`real-estate-simplified` repository: the appointments routes
(`backend/routes/appointments.js`) together with the database schema
(`backend/sql/schema.sql`), in particular the `before_appointment_insert`
priority trigger, the `after_appointment_cancel` renumbering trigger, the
`unique_property_schedule` unique key and the `outcome` column enum.

Stateful code is modelled by explicit state passing over a `Store` record
holding the persisted rows; fallible route handlers return `Except`.
-/

namespace RealEstate

/-- The `appointments.status` enum from schema.sql line 99. -/
inductive Status where
  | pending
  | assigned
  | scheduled
  | completed
  | cancelled
deriving DecidableEq

/-- The `appointments.customer_intent` enum from schema.sql line 84. -/
inductive Intent where
  | buy
  | rent
  | invest
  | inquire
deriving DecidableEq

/-- The outcome values accepted by the complete route validator
(`body('outcome').isIn([...])`, appointments route, line 566). -/
inductive Outcome where
  | interested
  | offer_made
  | not_interested
  | no_show
  | needs_followup
deriving DecidableEq

/-- The `users.role` enum from schema.sql line 18 (customers have no
accounts). -/
inductive Role where
  | agent
  | admin
deriving DecidableEq

/-- The `properties.status` enum from schema.sql line 44. -/
inductive PropStatus where
  | available
  | reserved
  | sold
deriving DecidableEq

/-- A row of the `appointments` table (schema.sql lines 76-124).
Dates, times and timestamps are abstract `Nat` codes; timestamps used in
arithmetic (`created_at`) are measured in hours so that the 24-hour
duplicate window is exact. -/
structure Appointment where
  id : Nat
  propertyId : Nat
  customerName : String
  customerEmail : String
  customerPhone : String
  customerIntent : Intent
  customerMessage : Option String
  priorityNumber : Nat
  assignedAgentId : Option Nat
  assignedAt : Option Nat
  scheduledDate : Option Nat
  scheduledTime : Option Nat
  status : Status
  outcome : Option Outcome
  outcomeNotes : Option String
  agentNotes : Option String
  adminNotes : Option String
  completedAt : Option Nat
  recaptchaScore : Option ℚ
  ipAddress : String
  createdAt : Nat
deriving DecidableEq

/-- A row of the `users` table, restricted to the fields the appointment
routes read. -/
structure User where
  id : Nat
  role : Role
  isActive : Bool
deriving DecidableEq

/-- A row of the `properties` table, restricted to the fields the
appointment routes read. -/
structure Property where
  id : Nat
  status : PropStatus
deriving DecidableEq

/-- The persisted state: the three tables the appointment routes touch,
plus the `AUTO_INCREMENT` counter of `appointments.id`. -/
structure Store where
  properties : List Property
  users : List User
  appointments : List Appointment
  nextId : Nat
deriving DecidableEq

/-- Result of `verifyRecaptcha` (appointments route, lines 28-45): the
parsed siteverify response (or, when the secret key is unset,
`{ success := true, score := 1 }`). -/
structure RecaptchaResult where
  success : Bool
  score : ℚ
deriving DecidableEq

/-- The body of `POST /api/appointments` plus the request context the
handler reads: `recaptcha` is `none` when no `recaptchaToken` was sent,
otherwise the verifier's response; `now` is the clock at the request. -/
structure CreateReq where
  propertyId : Nat
  customerName : String
  customerEmail : String
  customerPhone : String
  customerIntent : Intent
  customerMessage : Option String
  recaptcha : Option RecaptchaResult
  ipAddress : String
  now : Nat
deriving DecidableEq

/-- Errors surfaced by the appointment routes, one constructor per
distinct response produced by the handlers. -/
inductive ApiError where
  | recaptchaFailed
  | suspiciousActivity
  | propertyNotFound
  | propertyUnavailable
  | duplicateRequest
  | notFound
  | agentNotFoundOrInactive
  | slotConflict
  | validationFailed
  | internalError
deriving DecidableEq

/-- The anti-abuse threshold of the create handler: `recaptchaScore < 0.3`
is blocked (appointments route, line 105). -/
def recaptchaThreshold : ℚ := 3 / 10

/-- The duplicate-submission window: `INTERVAL 24 HOUR`
(appointments route, line 137), in hours. -/
def duplicateWindowHours : Nat := 24

/-- The `before_appointment_insert` trigger (schema.sql lines 128-138):
`COALESCE(MAX(priority_number), 0) + 1` over all appointments of the
property, regardless of status. -/
def priorityTrigger (appts : List Appointment) (pid : Nat) : Nat :=
  (((appts.filter (fun a => decide (a.propertyId = pid))).map
      (fun a => a.priorityNumber)).foldr max 0) + 1

/-- The row inserted by `POST /api/appointments` (appointments route,
lines 152-159): `AUTO_INCREMENT` id, the customer fields, the priority
from `before_appointment_insert`, the gate's score, everything else at
its column default. -/
def newAppointment (s : Store) (r : CreateReq) (score : Option ℚ) :
    Appointment :=
  { id := s.nextId
    propertyId := r.propertyId
    customerName := r.customerName
    customerEmail := r.customerEmail
    customerPhone := r.customerPhone
    customerIntent := r.customerIntent
    customerMessage := r.customerMessage
    priorityNumber := priorityTrigger s.appointments r.propertyId
    assignedAgentId := none
    assignedAt := none
    scheduledDate := none
    scheduledTime := none
    status := .pending
    outcome := none
    outcomeNotes := none
    agentNotes := none
    adminNotes := none
    completedAt := none
    recaptchaScore := score
    ipAddress := r.ipAddress
    createdAt := r.now }

/-- The tail of `POST /api/appointments` after the reCAPTCHA gate
(appointments route, lines 113-180): property lookup and availability
check, duplicate-submission check (note: no status filter in the query),
then the insert, whose `priority_number` is set by
`before_appointment_insert`. -/
def createAfterRecaptcha (s : Store) (r : CreateReq) (score : Option ℚ) :
    Except ApiError (Store × Appointment) :=
  match s.properties.find? (fun p => decide (p.id = r.propertyId)) with
  | none => .error .propertyNotFound
  | some prop =>
    if prop.status ≠ PropStatus.available then .error .propertyUnavailable
    else if ∃ b ∈ s.appointments, b.propertyId = r.propertyId ∧
        b.customerEmail = r.customerEmail ∧
        r.now < b.createdAt + duplicateWindowHours then
      .error .duplicateRequest
    else
      .ok ({ s with
              appointments := s.appointments ++ [newAppointment s r score],
              nextId := s.nextId + 1 },
           newAppointment s r score)

/-- Handler of `POST /api/appointments` (appointments route, lines
72-188).  The
reCAPTCHA gate (lines 92-111): with no token, no check runs and the
stored score stays NULL; with a token, a failed verification is rejected,
then a score below `recaptchaThreshold` is blocked. -/
def createAppointment (s : Store) (r : CreateReq) :
    Except ApiError (Store × Appointment) :=
  match r.recaptcha with
  | none => createAfterRecaptcha s r none
  | some rc =>
    if rc.success = false then .error .recaptchaFailed
    else if rc.score < recaptchaThreshold then .error .suspiciousActivity
    else createAfterRecaptcha s r (some rc.score)

/-- The row predicate of the schedule handler's lookup query
(appointments route, lines 477-483): `a.id = ? AND a.assigned_agent_id = ?`
joined with `properties`. -/
def schedOwnedPred (s : Store) (aid actorId : Nat) (a : Appointment) : Bool :=
  decide (a.id = aid ∧ a.assignedAgentId = some actorId ∧
    ∃ p ∈ s.properties, p.id = a.propertyId)

/-- Handler of `PUT /api/appointments/:id/schedule` (appointments route, lines
458-559): ownership lookup, the explicit double-booking pre-check
restricted to non-cancelled rows (lines 495-503), the write, and the
`unique_property_schedule` key (schema.sql line 123) whose violation —
possible because the key is NOT restricted to non-cancelled rows — is
caught as `ER_DUP_ENTRY` and returned as the same conflict response
(lines 548-553). -/
def scheduleAppointment (s : Store) (aid d t : Nat) (notes : Option String)
    (actorId : Nat) : Except ApiError Store :=
  match s.appointments.find? (schedOwnedPred s aid actorId) with
  | none => .error .notFound
  | some a =>
    if ∃ b ∈ s.appointments, b.propertyId = a.propertyId ∧
        b.scheduledDate = some d ∧ b.scheduledTime = some t ∧
        b.id ≠ aid ∧ b.status ≠ Status.cancelled then
      .error .slotConflict
    else if ∃ b ∈ s.appointments, b.id ≠ aid ∧ b.propertyId = a.propertyId ∧
        b.scheduledDate = some d ∧ b.scheduledTime = some t then
      .error .slotConflict
    else
      .ok { s with appointments := s.appointments.map (fun b =>
              if b.id = aid then
                { b with scheduledDate := some d, scheduledTime := some t,
                         agentNotes := notes, status := .scheduled }
              else b) }

/-- The `outcome` column enum of the `appointments` table
(schema.sql line 100): note the absence of `needs_followup`. -/
def schemaOutcomes : List Outcome :=
  [.interested, .offer_made, .not_interested, .no_show]

/-- The outcome values the complete route validator accepts
(appointments route, line 566). -/
def routeOutcomes : List Outcome :=
  [.interested, .offer_made, .not_interested, .no_show, .needs_followup]

/-- Handler of `PUT /api/appointments/:id/complete` (appointments route, lines
565-619): validator, ownership lookup (`id = ? AND assigned_agent_id = ?`,
with no status check and no join), then the update.  A value outside the
schema enum is rejected by the store (MySQL strict mode) and surfaced by
the catch block as a 500. -/
def completeAppointment (s : Store) (aid : Nat) (oc : Outcome)
    (ocNotes aNotes : Option String) (actorId now : Nat) :
    Except ApiError Store :=
  if oc ∉ routeOutcomes then .error .validationFailed
  else
    match s.appointments.find?
        (fun a => decide (a.id = aid ∧ a.assignedAgentId = some actorId)) with
    | none => .error .notFound
    | some _ =>
      if oc ∈ schemaOutcomes then
        .ok { s with appointments := s.appointments.map (fun b =>
                if b.id = aid then
                  { b with status := .completed, outcome := some oc,
                           outcomeNotes := ocNotes,
                           agentNotes := match aNotes with
                             | some n => some n
                             | none => b.agentNotes,
                           completedAt := some now }
                else b) }
      else .error .internalError

/-- The string prepended to the cancellation reason when it is appended
to `agent_notes` (appointments route, line 652). -/
def cancelTag : String := "\nCancelled: "

/-- The per-row effect of the cancel handler's UPDATE (appointments
route, lines 649-655): status to `cancelled` and the reason appended to
`agent_notes` via `CONCAT(COALESCE(agent_notes, ''), ...)`. -/
def cancelRow (aid : Nat) (reason : String) (b : Appointment) : Appointment :=
  if b.id = aid then
    { b with status := .cancelled,
             agentNotes := some ((b.agentNotes.getD "") ++ cancelTag ++ reason) }
  else b

/-- The row predicate of the cancel handler's lookup (appointments route,
lines 630-637): by id, and additionally by `assigned_agent_id` when the
actor is an agent.  There is no status precondition. -/
def cancelPred (actor : User) (aid : Nat) (a : Appointment) : Bool :=
  decide (a.id = aid ∧
    (actor.role = Role.agent → a.assignedAgentId = some actor.id))

/-- Handler of `PUT /api/appointments/:id/cancel` (appointments route,
lines 625-668) combined with the runtime behavior of the
`after_appointment_cancel` trigger (schema.sql lines 142-156).  The
trigger body UPDATEs the `appointments` table from within a trigger ON
`appointments`, which MySQL forbids: when the trigger's guard
`OLD.status != 'cancelled' AND NEW.status = 'cancelled'` holds — i.e.
whenever the cancel would actually change the status — executing the
inner UPDATE raises error 1442, the whole statement aborts with the row
unchanged, and the route's catch block answers 500.  Only re-cancelling
an already-cancelled row (guard false, inner UPDATE never reached)
commits, appending the reason again; the renumbering can never execute. -/
def cancelAppointment (s : Store) (aid : Nat) (actor : User)
    (reason : Option String) : Except ApiError Store :=
  match s.appointments.find? (cancelPred actor aid) with
  | none => .error .notFound
  | some a =>
    if a.status = Status.cancelled then
      .ok { s with
            appointments :=
              s.appointments.map
                (cancelRow aid (reason.getD "No reason provided")) }
    else
      .error .internalError

/-- Handler of `PUT /api/appointments/:id/assign` (appointments route, lines
362-452): appointment lookup joined with `properties` (no status check),
agent lookup (`role = 'agent' AND is_active = TRUE`), then the update
setting `assigned_agent_id`, `assigned_at = NOW()`, `status = 'assigned'`. -/
def assignAgent (s : Store) (aid gid now : Nat) : Except ApiError Store :=
  match s.appointments.find? (fun a => decide (a.id = aid ∧
      ∃ p ∈ s.properties, p.id = a.propertyId)) with
  | none => .error .notFound
  | some _ =>
    if ∃ u ∈ s.users, u.id = gid ∧ u.role = Role.agent ∧ u.isActive = true then
      .ok { s with appointments := s.appointments.map (fun b =>
              if b.id = aid then
                { b with assignedAgentId := some gid, assignedAt := some now,
                         status := .assigned }
              else b) }
    else .error .agentNotFoundOrInactive

/-- The `ORDER BY` status rank of the admin list (appointments route,
lines 223-229): `pending` 1, `assigned` 2, `scheduled` 3, else 4. -/
def statusRank : Status → Nat
  | .pending => 1
  | .assigned => 2
  | .scheduled => 3
  | _ => 4

/-- The admin list comparator: status rank ascending, then
`priority_number` ascending, then `created_at` descending
(appointments route, lines 223-231). -/
def adminLE (a b : Appointment) : Bool :=
  if statusRank a.status ≠ statusRank b.status then
    decide (statusRank a.status < statusRank b.status)
  else if a.priorityNumber ≠ b.priorityNumber then
    decide (a.priorityNumber < b.priorityNumber)
  else
    decide (b.createdAt ≤ a.createdAt)

/-- Handler of `GET /api/appointments` (appointments route, lines
194-274): optional
status filter, inner join with `properties`, the three-key `ORDER BY`,
and `LIMIT ? OFFSET ?` pagination. -/
def listAppointments (s : Store) (statusF : Option Status)
    (page limit : Nat) : List Appointment :=
  let rows := s.appointments.filter (fun a =>
    (match statusF with
     | none => true
     | some st => decide (a.status = st)) &&
    decide (∃ p ∈ s.properties, p.id = a.propertyId))
  (((rows.mergeSort adminLE).drop ((page - 1) * limit)).take limit)

/-- Whether a route call succeeded (HTTP 2xx) rather than returning an
error response. -/
def succeeds {α : Type} : Except ApiError α → Bool
  | .ok _ => true
  | .error _ => false

instance {ε α : Type} [DecidableEq ε] [DecidableEq α] :
    DecidableEq (Except ε α) := fun x y =>
  match x, y with
  | .ok a, .ok b =>
    if h : a = b then .isTrue (by rw [h]) else .isFalse (by simp [h])
  | .error a, .error b =>
    if h : a = b then .isTrue (by rw [h]) else .isFalse (by simp [h])
  | .ok _, .error _ => .isFalse (by simp)
  | .error _, .ok _ => .isFalse (by simp)

/-! ## Concrete fixtures

Small literal rows and stores used by witnesses and counterexamples. -/

/-- An appointment row of property 1 with the customer fields fixed and
the lifecycle fields supplied. -/
def mkAppt (i pr : Nat) (st : Status) (ag : Option Nat) (d t : Option Nat)
    (em : String) (cr : Nat) : Appointment :=
  { id := i, propertyId := 1, customerName := "n", customerEmail := em,
    customerPhone := "p", customerIntent := .buy, customerMessage := none,
    priorityNumber := pr, assignedAgentId := ag, assignedAt := none,
    scheduledDate := d, scheduledTime := t, status := st, outcome := none,
    outcomeNotes := none, agentNotes := none, adminNotes := none,
    completedAt := none, recaptchaScore := none, ipAddress := "ip",
    createdAt := cr }

/-- A creation request for property 1 with no reCAPTCHA token. -/
def mkReq (em : String) (t : Nat) : CreateReq :=
  { propertyId := 1, customerName := "n", customerEmail := em,
    customerPhone := "p", customerIntent := .buy, customerMessage := none,
    recaptcha := none, ipAddress := "ip", now := t }

def exAdmin : User := ⟨9, .admin, true⟩

/-- Store with an assigned appointment (id 1, agent 5) and a cancelled
appointment (id 2) still holding slot (301, 1000) of property 1. -/
def exS2 : Store :=
  ⟨[⟨1, .available⟩], [⟨5, .agent, true⟩],
   [mkAppt 1 1 .assigned (some 5) none none "a@x" 0,
    mkAppt 2 2 .cancelled (some 5) (some 301) (some 1000) "b@x" 0], 3⟩

/-- Store with a completed appointment (id 1) and a cancelled one (id 2). -/
def exS3 : Store :=
  ⟨[⟨1, .available⟩], [⟨5, .agent, true⟩],
   [mkAppt 1 1 .completed (some 5) (some 301) (some 1000) "a@x" 0,
    mkAppt 2 2 .cancelled (some 5) none none "b@x" 0], 3⟩

/-- Store with one assigned (never scheduled) appointment owned by agent 5. -/
def exS5 : Store :=
  ⟨[⟨1, .available⟩], [⟨5, .agent, true⟩],
   [mkAppt 1 1 .assigned (some 5) none none "a@x" 0], 2⟩

/-- Store with one pending appointment (no assigned agent yet). -/
def exS5w : Store :=
  ⟨[⟨1, .available⟩], [⟨5, .agent, true⟩],
   [mkAppt 1 1 .pending none none none "a@x" 0], 2⟩

/-- Store with one scheduled appointment owned by agent 5. -/
def exS9 : Store :=
  ⟨[⟨1, .available⟩], [⟨5, .agent, true⟩],
   [mkAppt 1 1 .scheduled (some 5) (some 301) (some 1000) "a@x" 0], 2⟩

/-! ## C3 — cancellation preconditions -/

/-- C3: the cancellation path is broken in the code.  Cancelling a
scheduled appointment — which the claim says succeeds — fails with the
internal-error response, because the status change fires
`after_appointment_cancel`, whose self-updating body MySQL aborts with
error 1442; cancelling a completed appointment fails the same way (a
500, not the claimed `InvalidTransition`); and re-cancelling an
already-cancelled appointment (trigger guard false) succeeds silently,
appending the reason again, instead of being rejected. -/
theorem cancel_trigger_1442_bug :
    (exS9.appointments.map (fun a => a.status)) = [Status.scheduled] ∧
    cancelAppointment exS9 1 exAdmin none = .error .internalError ∧
    (exS3.appointments.map (fun a => a.status))
        = [Status.completed, Status.cancelled] ∧
    cancelAppointment exS3 1 exAdmin none = .error .internalError ∧
    succeeds (cancelAppointment exS3 2 exAdmin (some "again")) = true := by
  decide

/-! ## C5 — completion preconditions -/

/-- Every `Outcome` value passes the complete route's validator. -/
theorem mem_routeOutcomes (oc : Outcome) : oc ∈ routeOutcomes := by
  cases oc <;> simp [routeOutcomes]

/-- C5 (amended): `completeAppointment` succeeds exactly when the
appointment exists with the calling agent as its assigned agent and the
outcome value is storable in the schema enum — the status is never
checked.  When no owned row exists (e.g. a pending appointment, whose
`assigned_agent_id` is NULL) the handler answers not-found, not
`InvalidTransition`. -/
theorem complete_succeeds_iff (s : Store) (aid : Nat) (oc : Outcome)
    (ocN aN : Option String) (actorId now : Nat) :
    (succeeds (completeAppointment s aid oc ocN aN actorId now) = true ↔
      (∃ a ∈ s.appointments, a.id = aid ∧ a.assignedAgentId = some actorId) ∧
        oc ∈ schemaOutcomes) ∧
    ((¬ ∃ a ∈ s.appointments, a.id = aid ∧ a.assignedAgentId = some actorId) →
      completeAppointment s aid oc ocN aN actorId now = .error .notFound) := by
  unfold completeAppointment
  rw [if_neg (not_not_intro (mem_routeOutcomes oc))]
  cases hf : s.appointments.find?
      (fun a => decide (a.id = aid ∧ a.assignedAgentId = some actorId)) with
  | none =>
    rw [List.find?_eq_none] at hf
    constructor
    · constructor
      · intro h; exact absurd h (by simp [succeeds])
      · rintro ⟨⟨a, ha, h1, h2⟩, _⟩
        exact absurd (by simp [h1, h2]) (hf a ha)
    · intro _; rfl
  | some a =>
    have ha := List.mem_of_find?_eq_some hf
    have hp := List.find?_some hf
    simp only [decide_eq_true_eq] at hp
    constructor
    · constructor
      · intro h
        refine ⟨⟨a, ha, hp⟩, ?_⟩
        by_contra hoc
        simp [if_neg hoc, succeeds] at h
      · rintro ⟨_, hoc⟩
        simp [if_pos hoc, succeeds]
    · intro hne; exact absurd ⟨a, ha, hp⟩ hne

/-- C5 counterexample: completing an appointment that is merely
`assigned` (never scheduled) succeeds, contradicting the claim that only
`scheduled` appointments can be completed. -/
theorem complete_assigned_cex :
    (exS5.appointments.map (fun a => a.status)) = [Status.assigned] ∧
    succeeds (completeAppointment exS5 1 .interested none none 5 99) = true := by
  decide

/-- C5 witness: completing a pending appointment answers not-found (its
`assigned_agent_id` is NULL), exercising the amended theorem. -/
theorem complete_pending_notfound_witness :
    completeAppointment exS5w 1 .interested none none 5 99
      = .error .notFound :=
  (complete_succeeds_iff exS5w 1 .interested none none 5 99).2 (by decide)

/-! ## C9 — outcome values -/

/-- C9: the complete route's validator accepts `needs_followup`
(appointments route line 566) but the schema's `outcome` enum
(schema.sql line 100) lacks it, so persisting that outcome fails at the
store and the call errors, while the other outcome values persist fine —
the code contradicts itself. -/
theorem outcome_needs_followup_bug :
    Outcome.needs_followup ∈ routeOutcomes ∧
    Outcome.needs_followup ∉ schemaOutcomes ∧
    completeAppointment exS9 1 .needs_followup none none 5 99
      = .error .internalError ∧
    succeeds (completeAppointment exS9 1 .interested none none 5 99) = true := by
  decide

/-! ## C7 — priority assignment -/

/-- Every member of a list of naturals is bounded by its max-fold. -/
theorem le_foldr_max (t : List Nat) : ∀ x ∈ t, x ≤ t.foldr max 0 := by
  induction t with
  | nil => simp
  | cons y t ih =>
    intro x hx
    rcases List.mem_cons.mp hx with h | h
    · subst h; exact Nat.le_max_left _ _
    · exact le_trans (ih x h) (Nat.le_max_right _ _)

/-- The max-fold of a nonempty list of naturals is one of its members. -/
theorem foldr_max_mem (t : List Nat) (h : t ≠ []) : t.foldr max 0 ∈ t := by
  induction t with
  | nil => exact absurd rfl h
  | cons y t ih =>
    by_cases ht : t = []
    · subst ht; simp
    · show max y (t.foldr max 0) ∈ y :: t
      rcases max_choice y (t.foldr max 0) with hm | hm <;> rw [hm]
      · exact List.mem_cons_self _ _
      · exact List.mem_cons_of_mem _ (ih ht)

/-- C7: on a successful creation the assigned priority number is strictly
above every existing appointment of the property, equals some existing
appointment's priority plus one when the property has appointments, and
equals 1 when it has none — i.e. it is the maximum over all existing
appointments of the property plus one, defaulting to 1. -/
theorem create_priority_max_plus_one (s : Store) (r : CreateReq)
    (s' : Store) (appt : Appointment)
    (h : createAppointment s r = .ok (s', appt)) :
    ((∀ a ∈ s.appointments, a.propertyId ≠ r.propertyId) →
      appt.priorityNumber = 1) ∧
    (∀ a ∈ s.appointments, a.propertyId = r.propertyId →
      a.priorityNumber < appt.priorityNumber) ∧
    ((∃ a ∈ s.appointments, a.propertyId = r.propertyId) →
      ∃ a ∈ s.appointments, a.propertyId = r.propertyId ∧
        appt.priorityNumber = a.priorityNumber + 1) := by
  have hpr : appt.priorityNumber = priorityTrigger s.appointments r.propertyId := by
    have shape : ∀ (sc : Option ℚ),
        createAfterRecaptcha s r sc = .ok (s', appt) →
        appt.priorityNumber = priorityTrigger s.appointments r.propertyId := by
      intro sc hcr
      unfold createAfterRecaptcha at hcr
      cases hf : s.properties.find? (fun p => decide (p.id = r.propertyId)) with
      | none => rw [hf] at hcr; cases hcr
      | some prop =>
        rw [hf] at hcr
        dsimp only at hcr
        split at hcr
        · cases hcr
        · split at hcr
          · cases hcr
          · simp only [Except.ok.injEq, Prod.mk.injEq] at hcr
            rw [← hcr.2]
            rfl
    unfold createAppointment at h
    cases hrc : r.recaptcha with
    | none => rw [hrc] at h; exact shape none h
    | some rc =>
      rw [hrc] at h
      dsimp only at h
      split at h
      · cases h
      · split at h
        · cases h
        · exact shape (some rc.score) h
  rw [hpr]
  unfold priorityTrigger
  refine ⟨?_, ?_, ?_⟩
  · intro hnone
    have : s.appointments.filter (fun a => decide (a.propertyId = r.propertyId)) = [] := by
      rw [List.filter_eq_nil_iff]
      intro a ha
      simp only [decide_eq_true_eq]
      exact hnone a ha
    rw [this]
    rfl
  · intro a ha hpid
    have hmem : a.priorityNumber ∈
        (s.appointments.filter (fun x => decide (x.propertyId = r.propertyId))).map
          (fun x => x.priorityNumber) :=
      List.mem_map_of_mem _ (List.mem_filter.mpr ⟨ha, by simp [hpid]⟩)
    have := le_foldr_max _ _ hmem
    omega
  · rintro ⟨a, ha, hpid⟩
    have hne : (s.appointments.filter (fun x => decide (x.propertyId = r.propertyId))).map
        (fun x => x.priorityNumber) ≠ [] := by
      intro hemp
      have hmem : a.priorityNumber ∈
          (s.appointments.filter (fun x => decide (x.propertyId = r.propertyId))).map
            (fun x => x.priorityNumber) :=
        List.mem_map_of_mem _ (List.mem_filter.mpr ⟨ha, by simp [hpid]⟩)
      rw [hemp] at hmem
      cases hmem
    have hmem := foldr_max_mem _ hne
    rcases List.mem_map.mp hmem with ⟨b, hb, hbp⟩
    rcases List.mem_filter.mp hb with ⟨hbmem, hbpid⟩
    simp only [decide_eq_true_eq] at hbpid
    exact ⟨b, hbmem, hbpid, by omega⟩

/-- Store with property 1 available, one active agent, and no
appointments yet. -/
def exS0 : Store := ⟨[⟨1, .available⟩], [⟨5, .agent, true⟩], [], 1⟩

/-- C7 witness: creating the first appointment of a property assigns
priority number 1. -/
theorem create_priority_witness :
    (newAppointment exS0 (mkReq "a@x" 0) none).priorityNumber = 1 :=
  (create_priority_max_plus_one exS0 (mkReq "a@x" 0)
    { exS0 with
        appointments := [newAppointment exS0 (mkReq "a@x" 0) none],
        nextId := 2 }
    (newAppointment exS0 (mkReq "a@x" 0) none) (by decide)).1 (by decide)

/-! ## C2 — scheduling conflicts -/

/-- C2 (amended): the schedule call answers the slot-conflict error
exactly when the ownership lookup finds the appointment and some other
appointment of the same property — of any status, cancelled included,
because the store's unique key is not restricted to non-cancelled rows —
already holds exactly the proposed (date, time); and a store-level
violation is translated to the same conflict error, never surfaced as an
internal failure. -/
theorem schedule_conflict_iff (s : Store) (aid d t : Nat)
    (notes : Option String) (actorId : Nat) :
    (scheduleAppointment s aid d t notes actorId = .error .slotConflict ↔
      ∃ a, s.appointments.find? (schedOwnedPred s aid actorId) = some a ∧
        ∃ b ∈ s.appointments, b.id ≠ aid ∧ b.propertyId = a.propertyId ∧
          b.scheduledDate = some d ∧ b.scheduledTime = some t) ∧
    scheduleAppointment s aid d t notes actorId ≠ .error .internalError := by
  unfold scheduleAppointment
  cases hf : s.appointments.find? (schedOwnedPred s aid actorId) with
  | none =>
    constructor
    · constructor
      · intro h; exact absurd h (by simp)
      · rintro ⟨a, ha, -⟩; cases ha
    · simp
  | some a =>
    dsimp only
    by_cases hcons : ∃ b ∈ s.appointments, b.id ≠ aid ∧
        b.propertyId = a.propertyId ∧ b.scheduledDate = some d ∧
        b.scheduledTime = some t
    · constructor
      · constructor
        · intro _; exact ⟨a, rfl, hcons⟩
        · intro _
          by_cases hpre : ∃ b ∈ s.appointments, b.propertyId = a.propertyId ∧
              b.scheduledDate = some d ∧ b.scheduledTime = some t ∧
              b.id ≠ aid ∧ b.status ≠ Status.cancelled
          · rw [if_pos hpre]
          · rw [if_neg hpre, if_pos hcons]
      · by_cases hpre : ∃ b ∈ s.appointments, b.propertyId = a.propertyId ∧
            b.scheduledDate = some d ∧ b.scheduledTime = some t ∧
            b.id ≠ aid ∧ b.status ≠ Status.cancelled
        · rw [if_pos hpre]; simp
        · rw [if_neg hpre, if_pos hcons]; simp
    · have hpre : ¬ ∃ b ∈ s.appointments, b.propertyId = a.propertyId ∧
          b.scheduledDate = some d ∧ b.scheduledTime = some t ∧
          b.id ≠ aid ∧ b.status ≠ Status.cancelled := by
        rintro ⟨b, hb, h1, h2, h3, h4, h5⟩
        exact hcons ⟨b, hb, h4, h1, h2, h3⟩
      rw [if_neg hpre, if_neg hcons]
      constructor
      · constructor
        · intro h; cases h
        · rintro ⟨a', ha', hb⟩
          cases Option.some.inj ha'
          exact absurd hb hcons
      · simp

/-- C2 counterexample: the only row holding slot (301, 1000) of property
1 is cancelled, yet scheduling appointment 1 at that slot is rejected
with the slot-conflict error — the rejection is not equivalent to a
non-cancelled holder existing, because the unique key also covers
cancelled rows. -/
theorem schedule_conflict_cancelled_slot_cex :
    (exS2.appointments.map (fun b => (b.status, b.scheduledDate, b.scheduledTime)))
      = [(Status.assigned, none, none),
         (Status.cancelled, some 301, some 1000)] ∧
    scheduleAppointment exS2 1 301 1000 none 5 = .error .slotConflict := by
  decide

/-! ## C6 — duplicate-submission guard -/

/-- Store with a single cancelled appointment for property 1 from
customer email `dup@x`, created at hour 0. -/
def exS6 : Store :=
  ⟨[⟨1, .available⟩], [⟨5, .agent, true⟩],
   [mkAppt 1 1 .cancelled none none none "dup@x" 0], 2⟩

/-- C6 (amended): with the reCAPTCHA and property gates passed, creation
is rejected as a duplicate exactly when some appointment — of any status,
cancelled included, since the query has no status filter — with the same
customer email and property was created within the preceding 24 hours;
when every such appointment is at least 24 hours old the submission
succeeds. -/
theorem create_duplicate_iff (s : Store) (r : CreateReq) (prop : Property)
    (hrc : r.recaptcha = none)
    (hfind : s.properties.find? (fun p => decide (p.id = r.propertyId))
      = some prop)
    (hav : prop.status = PropStatus.available) :
    (createAppointment s r = .error .duplicateRequest ↔
      ∃ b ∈ s.appointments, b.propertyId = r.propertyId ∧
        b.customerEmail = r.customerEmail ∧
        r.now < b.createdAt + duplicateWindowHours) ∧
    ((∀ b ∈ s.appointments, b.propertyId = r.propertyId →
        b.customerEmail = r.customerEmail →
        b.createdAt + duplicateWindowHours ≤ r.now) →
      succeeds (createAppointment s r) = true) := by
  unfold createAppointment
  rw [hrc]
  unfold createAfterRecaptcha
  rw [hfind]
  dsimp only
  rw [if_neg (not_not_intro hav)]
  by_cases hdup : ∃ b ∈ s.appointments, b.propertyId = r.propertyId ∧
      b.customerEmail = r.customerEmail ∧
      r.now < b.createdAt + duplicateWindowHours
  · rw [if_pos hdup]
    constructor
    · exact ⟨fun _ => hdup, fun _ => rfl⟩
    · intro hold
      rcases hdup with ⟨b, hb, h1, h2, h3⟩
      exact absurd (hold b hb h1 h2) (by omega)
  · rw [if_neg hdup]
    constructor
    · constructor
      · intro h; cases h
      · intro h; exact absurd h hdup
    · intro _; rfl

/-- C6 counterexample: a cancelled appointment from the same email for
the same property one hour old still blocks a new submission with the
duplicate error, so the guard is not restricted to non-cancelled
appointments as claimed. -/
theorem duplicate_cancelled_cex :
    (exS6.appointments.map (fun a => (a.status, a.customerEmail, a.createdAt)))
      = [(Status.cancelled, "dup@x", 0)] ∧
    createAppointment exS6 (mkReq "dup@x" 1) = .error .duplicateRequest := by
  decide

/-- C6 witness: a submission from the same email for the same property
25 hours after the previous one succeeds. -/
theorem create_after_window_witness :
    succeeds (createAppointment exS6 (mkReq "dup@x" 25)) = true :=
  (create_duplicate_iff exS6 (mkReq "dup@x" 25) ⟨1, .available⟩ rfl
    (by decide) rfl).2 (by decide)

/-! ## C10 — the reCAPTCHA gate -/

/-- C10: without a token no anti-abuse rejection is possible and the
stored score is NULL; with a token whose verification succeeded, the
submission is blocked for suspicious activity exactly when the returned
score is below the 0.3 threshold. -/
theorem create_recaptcha_gate (s : Store) (r : CreateReq)
    (rc : RecaptchaResult) :
    (createAppointment s { r with recaptcha := none }
        ≠ .error .suspiciousActivity ∧
     createAppointment s { r with recaptcha := none }
        ≠ .error .recaptchaFailed ∧
     ∀ s' appt,
       createAppointment s { r with recaptcha := none } = .ok (s', appt) →
         appt.recaptchaScore = none) ∧
    (rc.success = true →
      (createAppointment s { r with recaptcha := some rc }
          = .error .suspiciousActivity ↔ rc.score < recaptchaThreshold)) := by
  have key : ∀ (r' : CreateReq) (sc : Option ℚ),
      createAfterRecaptcha s r' sc ≠ .error .suspiciousActivity ∧
      createAfterRecaptcha s r' sc ≠ .error .recaptchaFailed ∧
      ∀ s' appt, createAfterRecaptcha s r' sc = .ok (s', appt) →
        appt.recaptchaScore = sc := by
    intro r' sc
    unfold createAfterRecaptcha
    cases hf : s.properties.find? (fun p => decide (p.id = r'.propertyId)) with
    | none => simp
    | some prop =>
      dsimp only
      split
      · simp
      · split
        · simp
        · refine ⟨by simp, by simp, ?_⟩
          intro s' appt h
          simp only [Except.ok.injEq, Prod.mk.injEq] at h
          rw [← h.2]
          rfl
  constructor
  · exact key { r with recaptcha := none } none
  · intro hsucc
    show (createAppointment s { r with recaptcha := some rc }
        = .error .suspiciousActivity ↔ rc.score < recaptchaThreshold)
    unfold createAppointment
    dsimp only
    rw [if_neg (by rw [hsucc]; simp)]
    by_cases hsc : rc.score < recaptchaThreshold
    · rw [if_pos hsc]; exact ⟨fun _ => hsc, fun _ => rfl⟩
    · rw [if_neg hsc]
      exact ⟨fun h => absurd h (key { r with recaptcha := some rc }
        (some rc.score)).1, fun h => absurd h hsc⟩

/-- C10 witness: a verified token with score 0.2 is blocked for
suspicious activity. -/
theorem recaptcha_low_score_witness :
    createAppointment exS6 { mkReq "w@x" 0 with recaptcha := some ⟨true, 1/5⟩ }
      = .error .suspiciousActivity :=
  ((create_recaptcha_gate exS6 (mkReq "w@x" 0) ⟨true, 1/5⟩).2 rfl).mpr
    (by norm_num [recaptchaThreshold])

/-! ## C4 — agent assignment -/

/-- C4 (amended): `assignAgent` succeeds exactly when the appointment
exists (with its property joined — but in any status, not only
`pending`) and the target agent exists with the agent role and is
active; an invalid agent yields the agent-not-found-or-inactive error;
on success the row gets the agent, `assignedAt = now` and status
`assigned`, and every other row is untouched. -/
theorem assign_agent_spec (s : Store) (aid gid now : Nat) :
    (succeeds (assignAgent s aid gid now) = true ↔
      (∃ a ∈ s.appointments, a.id = aid ∧
        ∃ p ∈ s.properties, p.id = a.propertyId) ∧
      ∃ u ∈ s.users, u.id = gid ∧ u.role = Role.agent ∧ u.isActive = true) ∧
    ((∃ a ∈ s.appointments, a.id = aid ∧
        ∃ p ∈ s.properties, p.id = a.propertyId) →
      (¬ ∃ u ∈ s.users, u.id = gid ∧ u.role = Role.agent ∧
          u.isActive = true) →
      assignAgent s aid gid now = .error .agentNotFoundOrInactive) ∧
    (∀ s', assignAgent s aid gid now = .ok s' →
      ∀ b ∈ s'.appointments,
        if b.id = aid then
          b.assignedAgentId = some gid ∧ b.assignedAt = some now ∧
            b.status = Status.assigned
        else b ∈ s.appointments) := by
  unfold assignAgent
  cases hf : s.appointments.find? (fun a => decide (a.id = aid ∧
      ∃ p ∈ s.properties, p.id = a.propertyId)) with
  | none =>
    rw [List.find?_eq_none] at hf
    refine ⟨?_, ?_, ?_⟩
    · constructor
      · intro h; exact absurd h (by simp [succeeds])
      · rintro ⟨⟨a, ha, h1, h2⟩, -⟩
        exact absurd (by simp only [decide_eq_true_eq]; exact ⟨h1, h2⟩)
          (hf a ha)
    · rintro ⟨a, ha, h1, h2⟩ -
      exact absurd (by simp only [decide_eq_true_eq]; exact ⟨h1, h2⟩)
        (hf a ha)
    · intro s' h; cases h
  | some a =>
    have ha := List.mem_of_find?_eq_some hf
    have hp := List.find?_some hf
    simp only [decide_eq_true_eq] at hp
    dsimp only
    by_cases hu : ∃ u ∈ s.users, u.id = gid ∧ u.role = Role.agent ∧
        u.isActive = true
    · rw [if_pos hu]
      refine ⟨⟨fun _ => ⟨⟨a, ha, hp⟩, hu⟩, fun _ => rfl⟩,
        fun _ hnu => absurd hu hnu, ?_⟩
      intro s' h
      simp only [Except.ok.injEq] at h
      subst h
      intro b hb
      rcases List.mem_map.mp hb with ⟨c, hc, hcb⟩
      by_cases hcid : c.id = aid
      · rw [if_pos hcid] at hcb
        have hbid : b.id = aid := by rw [← hcb]; exact hcid
        rw [if_pos hbid, ← hcb]
        exact ⟨rfl, rfl, rfl⟩
      · rw [if_neg hcid] at hcb
        have hbid : ¬ b.id = aid := by rw [← hcb]; exact hcid
        rw [if_neg hbid, ← hcb]
        exact hc
    · rw [if_neg hu]
      refine ⟨?_, fun _ _ => rfl, fun s' h => by cases h⟩
      constructor
      · intro h; exact absurd h (by simp [succeeds])
      · rintro ⟨-, hu'⟩; exact absurd hu' hu

/-- Store with one completed appointment (id 1) of property 1 and an
active agent 5. -/
def exS4 : Store :=
  ⟨[⟨1, .available⟩], [⟨5, .agent, true⟩],
   [mkAppt 1 1 .completed (some 5) (some 301) (some 1000) "a@x" 0], 2⟩

/-- Store with one pending appointment and only an inactive agent 5. -/
def exS4w : Store :=
  ⟨[⟨1, .available⟩], [⟨5, .agent, false⟩],
   [mkAppt 1 1 .pending none none none "a@x" 0], 2⟩

/-- C4 counterexample: assigning an agent to a completed appointment
succeeds (and resets its status to assigned), contradicting the claim
that assignment requires status pending. -/
theorem assign_non_pending_cex :
    (exS4.appointments.map (fun a => a.status)) = [Status.completed] ∧
    succeeds (assignAgent exS4 1 5 100) = true := by
  decide

/-- C4 witness: assigning an inactive agent fails with the
agent-not-found-or-inactive error. -/
theorem assign_inactive_agent_witness :
    assignAgent exS4w 1 5 100 = .error .agentNotFoundOrInactive :=
  (assign_agent_spec exS4w 1 5 100).2.1 (by decide) (by decide)

/-! ## C8 — admin list ordering -/

/-- The admin comparator is total. -/
theorem adminLE_total : ∀ (a b : Appointment), adminLE a b || adminLE b a := by
  intro a b
  unfold adminLE
  split_ifs <;> simp_all
  omega

/-- The admin comparator is transitive. -/
theorem adminLE_trans :
    ∀ (a b c : Appointment), adminLE a b → adminLE b c → adminLE a c := by
  intro a b c h1 h2
  unfold adminLE at *
  split_ifs at * <;> simp_all <;> omega

/-- C8: for every store contents, status filter and pagination window,
the admin list is sorted by the comparator: status priority (`pending` <
`assigned` < `scheduled` < other), then priority number ascending, then
creation time descending. -/
theorem list_appointments_sorted (s : Store) (f : Option Status)
    (page limit : Nat) :
    (listAppointments s f page limit).Pairwise
      (fun a b => adminLE a b = true) := by
  unfold listAppointments
  exact List.Pairwise.sublist
    ((List.take_sublist _ _).trans (List.drop_sublist _ _))
    (List.sorted_mergeSort adminLE_trans adminLE_total _)

/-! ## C1 — the dense-priorities invariant -/

/-- The priority numbers of the non-cancelled appointments of a
property, in store order. -/
def activeP (l : List Appointment) (pid : Nat) : List Nat :=
  (l.filter (fun a => decide (a.propertyId = pid ∧
    a.status ≠ Status.cancelled))).map (fun a => a.priorityNumber)

/-- The function `activeP` applied to the store's table. -/
def activePriorities (s : Store) (pid : Nat) : List Nat :=
  activeP s.appointments pid

/-- Invariant I1: the priorities of the non-cancelled appointments of
the property form the dense sequence 1..N. -/
def densePriorities (s : Store) (pid : Nat) : Prop :=
  activePriorities s pid
    = List.range' 1 (activePriorities s pid).length

instance (s : Store) (pid : Nat) : Decidable (densePriorities s pid) :=
  inferInstanceAs (Decidable (_ = _))

/-- A client-visible mutation of the appointment set: a customer
submission or a cancellation. -/
inductive Op where
  | create (r : CreateReq)
  | cancel (aid : Nat) (actor : User) (reason : Option String)

/-- Apply one operation; a rejected call leaves the store unchanged. -/
def applyOp (s : Store) : Op → Store
  | .create r =>
    match createAppointment s r with
    | .ok (s', _) => s'
    | .error _ => s
  | .cancel aid actor reason =>
    match cancelAppointment s aid actor reason with
    | .ok s' => s'
    | .error _ => s

/-- Run a sequence of operations left to right. -/
def runOps (s : Store) (ops : List Op) : Store := ops.foldl applyOp s

/-- Three submissions for property 1, giving priorities 1, 2, 3. -/
def c1Creates : List Op :=
  [.create (mkReq "a@x" 0), .create (mkReq "b@x" 0),
   .create (mkReq "c@x" 0)]

/-- C1: the renumbering half of the claim can never execute.  After
three creations the non-cancelled appointments of property 1 hold the
dense priorities [1, 2, 3]; cancelling the priority-2 appointment — the
spec's own scenario, which the claim says leaves the remaining
non-cancelled appointments renumbered to [1, 2] — instead fails with the
internal-error response (the status change fires
`after_appointment_cancel`, whose self-updating UPDATE MySQL aborts with
error 1442), leaves the store unchanged with all three appointments
still active at [1, 2, 3], and in particular does not produce the
claimed [1, 2]. -/
theorem cancel_renumber_1442_bug :
    activePriorities (runOps exS0 c1Creates) 1 = [1, 2, 3] ∧
    densePriorities (runOps exS0 c1Creates) 1 ∧
    cancelAppointment (runOps exS0 c1Creates) 2 exAdmin none
      = .error .internalError ∧
    runOps (runOps exS0 c1Creates) [Op.cancel 2 exAdmin none]
      = runOps exS0 c1Creates ∧
    ¬ (activePriorities (runOps (runOps exS0 c1Creates)
        [Op.cancel 2 exAdmin none]) 1 = [1, 2]) := by
  decide

end RealEstate
